import Mathlib

/-!
Verification of the Teleport Kubernetes operator's generic resource
reconciliation engine (`operator/controllers/resources`), centred on
`TeleportResourceReconciler.Upsert` and `TeleportResourceReconciler.Delete`.

The Go code is embedded shallowly: each remote call outcome (get result,
create/update error, status-write error) is an input in an `UpsertEnv`,
and a pass is a pure function producing the ordered trace of calls it
made, the final condition list on the Kubernetes object, and the error
it returned.  Helpers that the excerpt calls but does not define
(`checkOwnership`, `getReconciliationConditionFromError`,
`silentUpdateStatus`, and the base control loop's delete handling) are
modelled from the specification and marked as such.
-/

namespace TeleportOperator

/-- Origin label value stamped by the operator (`types.OriginKubernetes`). -/
def OriginKubernetes : String := "kubernetes"

/-- A Teleport (remote/backend) resource: name, opaque spec payload, and the
origin tag recording which subsystem last wrote it. -/
structure RemoteResource where
  name : String
  spec : String
  origin : String
deriving DecidableEq, Repr

/-- A status condition (`metav1.Condition`, restricted to the fields the
engine reads or writes): condition type (called `kind` here), boolean
status, reason, message, and the observed generation.
`meta.SetStatusCondition` copies `ObservedGeneration` from the new
condition it is handed, so a condition built without setting the field
is stored with the Go zero value 0. -/
structure Condition where
  kind : String
  status : Bool
  reason : String
  message : String
  observedGeneration : Nat
deriving DecidableEq, Repr

/-- Condition type used for the ownership condition. -/
def ConditionTypeTeleportResourceOwned : String := "TeleportResourceOwned"

/-- Condition type used for the reconciliation condition. -/
def ConditionTypeSuccessfullyReconciled : String := "SuccessfullyReconciled"

/-- The Kubernetes-side declarative resource: its name, the payload that
`ToTeleport` converts, its generation counter, and its status condition
list (the list behind `StatusConditions()`).  `Upsert` never reads the
generation: no call in its body receives it. -/
structure K8sResource where
  name : String
  remoteSpec : String
  generation : Nat
  conditions : List Condition
deriving DecidableEq, Repr

/-- `ToTeleport()`: convert the Kubernetes object into the Teleport wire
resource.  The conversion does not set the origin tag; `Upsert` stamps it
later. -/
def K8sResource.toTeleport (k : K8sResource) : RemoteResource :=
  { name := k.name, spec := k.remoteSpec, origin := "" }

/-- The `kclient.Object` handed to `Upsert`.  The Go code performs a type
assertion `obj.(K)`; `isExpectedType` records whether that assertion
succeeds, and `typeName` is the dynamic type name interpolated into the
error message when it does not. -/
structure KObject where
  isExpectedType : Bool
  typeName : String
  resource : K8sResource
deriving DecidableEq, Repr

/-- `meta.SetStatusCondition` (k8s apimachinery): replace the first
condition with the same type in place, or append the new condition if no
condition of that type exists. -/
def setStatusCondition : List Condition → Condition → List Condition
  | [], c => [c]
  | c0 :: rest, c =>
      if c0.kind = c.kind then c :: rest else c0 :: setStatusCondition rest c

/-- Outcome of the bound `get(name)` remote call, classified the way
`trace.IsNotFound` classifies it in `Upsert`. -/
inductive GetOutcome where
  | found (res : RemoteResource)
  | notFound
  | otherError (e : String)
deriving DecidableEq, Repr

/-- The existing remote resource passed to `checkOwnership`: the fetched
resource when `get` found one, nothing otherwise. -/
def existingOf : GetOutcome → Option RemoteResource
  | GetOutcome.found r => some r
  | _ => none

/-- One observable step of a reconciliation pass, in execution order:
remote-client calls, the ownership-check evaluation, and status
write-backs (`silent := true` for `silentUpdateStatus`, `false` for the
final `r.Status().Update`). -/
inductive CallEvent where
  | getCall (name : String)
  | ownershipCheck
  | createCall (fn : String) (res : RemoteResource)
  | updateCall (fn : String) (res : RemoteResource)
  | deleteCall (fn : String) (name : String)
  | statusWrite (silent : Bool) (conds : List Condition)
deriving DecidableEq, Repr

/-- Whether an event is a create or update call. -/
def CallEvent.isMutation : CallEvent → Bool
  | CallEvent.createCall _ _ => true
  | CallEvent.updateCall _ _ => true
  | _ => false

/-- Whether an event is any mutating backend call (create, update or
delete). -/
def CallEvent.isBackendMutation : CallEvent → Bool
  | CallEvent.createCall _ _ => true
  | CallEvent.updateCall _ _ => true
  | CallEvent.deleteCall _ _ => true
  | _ => false

/-- Whether an event is the ownership-check evaluation. -/
def CallEvent.isOwnershipCheck : CallEvent → Bool
  | CallEvent.ownershipCheck => true
  | _ => false

/-- Whether an event is a status write-back. -/
def CallEvent.isStatusWrite : CallEvent → Bool
  | CallEvent.statusWrite _ _ => true
  | _ => false

/-- The remote-client functions bound into a `TeleportResourceReconciler`,
identified by name. -/
structure Bindings where
  getFn : String
  updateFn : String
  createFn : String
  deleteFn : String
deriving DecidableEq, Repr

/-- `NewTeleportResourceReconciler(client, get, update, create, delete)`:
records the bound remote-client functions, in the source's argument
order. -/
def NewTeleportResourceReconciler
    (get update create delete : String) : Bindings :=
  { getFn := get, updateFn := update, createFn := create, deleteFn := delete }

/-- `NewOIDCConnectorReconciler`: binds get, update, create, delete, where
both the update and the create argument are `UpsertOIDCConnector`. -/
def NewOIDCConnectorReconciler : Bindings :=
  NewTeleportResourceReconciler
    "GetOIDCConnector" "UpsertOIDCConnector" "UpsertOIDCConnector"
    "DeleteOIDCConnector"

/-- `NewSAMLConnectorReconciler`: binds get, update, create, delete, where
both the update and the create argument are `UpsertSAMLConnector`. -/
def NewSAMLConnectorReconciler : Bindings :=
  NewTeleportResourceReconciler
    "GetSAMLConnector" "UpsertSAMLConnector" "UpsertSAMLConnector"
    "DeleteSAMLConnector"

/-- `NewGithubConnectorReconciler`: binds get, update, create, delete, where
both the update and the create argument are `UpsertGithubConnector`. -/
def NewGithubConnectorReconciler : Bindings :=
  NewTeleportResourceReconciler
    "GetGithubConnector" "UpsertGithubConnector" "UpsertGithubConnector"
    "DeleteGithubConnector"

/-- Modelled from the spec: `checkOwnership` is called by `Upsert` but its
definition is not part of the excerpt.  Per the Ownership Arbiter
contract: not-found yields a grantable verdict with an ownership=true
condition and reason "new resource"; a found resource whose origin tag is
the engine's marker yields grantable with reason "already owned"; a found
resource with any other origin yields a denied verdict, an
ownership=false condition with reason "origin conflict" and a message
identifying the foreign origin, and an ownership error.  Denial is
communicated as an error value, since `Upsert` branches on the returned
error.  The call site passes only the Teleport resource, which carries no
Kubernetes generation, so the built condition leaves `observedGeneration`
at the Go zero value 0. -/
def checkOwnership (existing : Option RemoteResource) :
    Condition × Option String :=
  match existing with
  | none =>
      ({ kind := ConditionTypeTeleportResourceOwned, status := true,
         reason := "new resource", message := "",
         observedGeneration := 0 }, none)
  | some r =>
      if r.origin = OriginKubernetes then
        ({ kind := ConditionTypeTeleportResourceOwned, status := true,
           reason := "already owned", message := "",
           observedGeneration := 0 }, none)
      else
        ({ kind := ConditionTypeTeleportResourceOwned, status := false,
           reason := "origin conflict",
           message := "resource has foreign origin: " ++ r.origin,
           observedGeneration := 0 },
         some ("resource " ++ r.name ++ " is not owned by the operator, origin: "
               ++ r.origin))

/-- Modelled from the spec: `getReconciliationConditionFromError` is called
by `Upsert` but not defined in the excerpt.  It derives the
reconciliation condition: true/success when the mutation error is nil,
false/failure carrying the error's message otherwise.  Its only argument
is the error, so the built condition leaves `observedGeneration` at the
Go zero value 0. -/
def getReconciliationConditionFromError (err : Option String) : Condition :=
  match err with
  | none =>
      { kind := ConditionTypeSuccessfullyReconciled, status := true,
        reason := "reconciliation succeeded", message := "",
        observedGeneration := 0 }
  | some e =>
      { kind := ConditionTypeSuccessfullyReconciled, status := false,
        reason := "reconciliation failed", message := e,
        observedGeneration := 0 }

/-- Remote-call and status-write outcomes feeding one upsert pass: the get
result, the error returned by the bound create (resp. update) call if it
is invoked, and the error returned by a status write-back if one is
attempted. -/
structure UpsertEnv where
  getOutcome : GetOutcome
  createError : Option String
  updateError : Option String
  statusWriteError : Option String
deriving DecidableEq, Repr

/-- Result of one upsert pass: the ordered trace of calls made, the final
condition list on the Kubernetes object, and the returned error (`none`
is a nil return). -/
structure UpsertResult where
  calls : List CallEvent
  conditions : List Condition
  ret : Option String
deriving DecidableEq, Repr

/-- The part of `Upsert` after the get call has been classified:
run `checkOwnership`, set its condition (a failed check persists via
`silentUpdateStatus` and returns); stamp the origin tag, call create if
the resource did not exist else update, set the reconciliation condition
(a failed mutation persists via `silentUpdateStatus` and returns the
mutation error); otherwise return the final `r.Status().Update` result.
`silentUpdateStatus` is modelled from the spec: it attempts the status
write and discards its error. -/
def upsertFromGet (b : Bindings) (env : UpsertEnv) (k8sResource : K8sResource)
    (teleportResource : RemoteResource) (resourceExists : Bool)
    (existing : Option RemoteResource) : UpsertResult :=
  let own := checkOwnership existing
  let conds1 := setStatusCondition k8sResource.conditions own.1
  let pre := [CallEvent.getCall teleportResource.name, CallEvent.ownershipCheck]
  match own.2 with
  | some e =>
      { calls := pre ++ [CallEvent.statusWrite true conds1],
        conditions := conds1, ret := some e }
  | none =>
      let stamped : RemoteResource :=
        { teleportResource with origin := OriginKubernetes }
      let mutEvent :=
        if resourceExists then CallEvent.updateCall b.updateFn stamped
        else CallEvent.createCall b.createFn stamped
      let mutErr := if resourceExists then env.updateError else env.createError
      let conds2 :=
        setStatusCondition conds1 (getReconciliationConditionFromError mutErr)
      match mutErr with
      | some e =>
          { calls := pre ++ [mutEvent, CallEvent.statusWrite true conds2],
            conditions := conds2, ret := some e }
      | none =>
          { calls := pre ++ [mutEvent, CallEvent.statusWrite false conds2],
            conditions := conds2, ret := env.statusWriteError }

/-- `TeleportResourceReconciler.Upsert`: assert the object's type (a
mismatch returns an error immediately), convert it with `ToTeleport`,
call the bound get, return any non-NotFound get error as is, and
otherwise continue with `upsertFromGet` with `exists` computed as
`!trace.IsNotFound(err)`. -/
def Upsert (b : Bindings) (env : UpsertEnv) (obj : KObject) : UpsertResult :=
  if obj.isExpectedType = false then
    { calls := [],
      conditions := obj.resource.conditions,
      ret := some ("failed to convert Object into resource object: "
                   ++ obj.typeName) }
  else
    let k8sResource := obj.resource
    let teleportResource := k8sResource.toTeleport
    match env.getOutcome with
    | GetOutcome.otherError e =>
        { calls := [CallEvent.getCall teleportResource.name],
          conditions := k8sResource.conditions, ret := some e }
    | GetOutcome.notFound =>
        upsertFromGet b env k8sResource teleportResource false none
    | GetOutcome.found r =>
        upsertFromGet b env k8sResource teleportResource true (some r)

/-- Outcome of the bound `delete(name)` remote call, classified the way
`trace.IsNotFound` classifies it. -/
inductive DeleteOutcome where
  | success
  | notFound
  | otherError (e : String)
deriving DecidableEq, Repr

/-- `TeleportResourceReconciler.Delete`: call the bound delete with the
object's name and return its result unchanged (`trace.Wrap` preserves the
error and its NotFound classification). -/
def Delete (deleteFn : String → DeleteOutcome) (obj : KObject) :
    DeleteOutcome :=
  deleteFn obj.resource.name

/-- Modelled from the spec: the delete handling of the base control loop
(`ResourceBaseReconciler.Do`, absent from the excerpt) invokes
`DeleteExternal` — which is bound to `Delete` — and accepts NotFound as
success, so that a remote resource that already vanished does not block
finalizer removal; any other error is propagated for retry. -/
def baseLoopDelete (deleteFn : String → DeleteOutcome) (obj : KObject) :
    Option String :=
  match Delete deleteFn obj with
  | DeleteOutcome.success => none
  | DeleteOutcome.notFound => none
  | DeleteOutcome.otherError e => some e

/-- The error, if any, produced by the get, ownership-check and mutation
steps of a pass — the "primary" outcome against which the status-write
policy is stated. -/
def primaryError (env : UpsertEnv) : Option String :=
  match env.getOutcome with
  | GetOutcome.otherError e => some e
  | GetOutcome.notFound =>
      match (checkOwnership none).2 with
      | some e => some e
      | none => env.createError
  | GetOutcome.found r =>
      match (checkOwnership (some r)).2 with
      | some e => some e
      | none => env.updateError

/-- Concrete declarative object used for concrete evaluations, mirroring
the spec's scenario resource named "conn-a". -/
def objConnA : KObject :=
  { isExpectedType := true, typeName := "TeleportOIDCConnector",
    resource := { name := "conn-a", remoteSpec := "issuer",
                  generation := 3, conditions := [] } }

/-- Environment where the resource is absent remotely and every call
succeeds. -/
def envCreateOk : UpsertEnv :=
  { getOutcome := GetOutcome.notFound, createError := none,
    updateError := none, statusWriteError := none }

/-- A pre-existing remote resource with a foreign origin tag. -/
def remoteForeign : RemoteResource :=
  { name := "conn-a", spec := "issuer-old", origin := "config-file" }

/-- Environment where the remote resource pre-exists with a foreign origin. -/
def envFoundForeign : UpsertEnv :=
  { getOutcome := GetOutcome.found remoteForeign, createError := none,
    updateError := none, statusWriteError := none }

/-- Wrongly-typed object handed to `Upsert`. -/
def objWrongType : KObject :=
  { isExpectedType := false, typeName := "TeleportRole",
    resource := { name := "conn-w", remoteSpec := "w", generation := 2,
                  conditions := [{ kind := ConditionTypeSuccessfullyReconciled,
                                   status := true, reason := "reconciliation succeeded",
                                   message := "", observedGeneration := 1 }] } }

/-- Environment where the get call fails with an error that is not
NotFound. -/
def envGetErr : UpsertEnv :=
  { getOutcome := GetOutcome.otherError "backend unavailable",
    createError := none, updateError := none, statusWriteError := none }

/-- Environment where get reports NotFound, the create call succeeds, and
the final status write fails. -/
def envStatusFail : UpsertEnv :=
  { getOutcome := GetOutcome.notFound, createError := none,
    updateError := none, statusWriteError := some "status write failed" }

/-- The backend function name invoked by a create, update or delete
event. -/
def CallEvent.backendFn : CallEvent → Option String
  | CallEvent.createCall fn _ => some fn
  | CallEvent.updateCall fn _ => some fn
  | CallEvent.deleteCall fn _ => some fn
  | _ => none

/-- A stale reconciliation condition left by an earlier pass. -/
def staleReconCond : Condition :=
  { kind := ConditionTypeSuccessfullyReconciled, status := false,
    reason := "reconciliation failed", message := "old failure",
    observedGeneration := 1 }

/-- Declarative object carrying a stale reconciliation condition from an
earlier pass. -/
def objStale : KObject :=
  { isExpectedType := true, typeName := "TeleportOIDCConnector",
    resource := { name := "conn-b", remoteSpec := "issuer-b",
                  generation := 4, conditions := [staleReconCond] } }

/-- Environment where the get call times out (a non-NotFound error). -/
def envGetTimeout : UpsertEnv :=
  { getOutcome := GetOutcome.otherError "context deadline exceeded",
    createError := none, updateError := none, statusWriteError := none }

/-- A bound delete that reports the remote resource already absent. -/
def deleteNotFoundFn : String → DeleteOutcome := fun _ => DeleteOutcome.notFound

/-- The create event produced by reconciling `objConnA` with the OIDC
bindings in `envCreateOk`. -/
def createdEventConnA : CallEvent :=
  CallEvent.createCall "UpsertOIDCConnector"
    { name := "conn-a", spec := "issuer", origin := "kubernetes" }

-- Helper lemmas --------------------------------------------------------

/-- Setting a condition makes that very condition a member of the list. -/
theorem mem_setStatusCondition (conds : List Condition) (c : Condition) :
    c ∈ setStatusCondition conds c := by
  induction conds with
  | nil => simp [setStatusCondition]
  | cons c0 rest ih =>
      by_cases h : c0.kind = c.kind
      · simp [setStatusCondition, h]
      · simpa [setStatusCondition, h] using Or.inr ih

/-- Setting a condition of one kind leaves the sub-list of conditions of a
different kind unchanged. -/
theorem setStatusCondition_filter_ne (conds : List Condition) (c : Condition)
    (k : String) (h : ¬ c.kind = k) :
    (setStatusCondition conds c).filter (fun c0 => c0.kind == k)
      = conds.filter (fun c0 => c0.kind == k) := by
  induction conds with
  | nil => simp [setStatusCondition, h]
  | cons c0 rest ih =>
      by_cases h0 : c0.kind = c.kind
      · have hk : ¬ c0.kind = k := by rw [h0]; exact h
        simp [setStatusCondition, h0, h, hk]
      · simp [setStatusCondition, h0, List.filter_cons, ih]

/-- Setting a condition of one kind preserves the existence (with any
property) of a condition of a different kind. -/
theorem exists_kind_setStatusCondition (conds : List Condition)
    (c2 : Condition) (k : String) (P : Condition → Prop)
    (h : ¬ c2.kind = k) :
    (∃ c ∈ conds, c.kind = k ∧ P c) →
      ∃ c ∈ setStatusCondition conds c2, c.kind = k ∧ P c := by
  induction conds with
  | nil => simp
  | cons c0 rest ih =>
      by_cases h0 : c0.kind = c2.kind
      · simp only [setStatusCondition, if_pos h0, List.mem_cons]
        rintro ⟨c, (rfl | hc), hk, hP⟩
        · exact absurd (h0.symm.trans hk) h
        · exact ⟨c, Or.inr hc, hk, hP⟩
      · simp only [setStatusCondition, if_neg h0, List.mem_cons]
        rintro ⟨c, (rfl | hc), hk, hP⟩
        · exact ⟨c, Or.inl rfl, hk, hP⟩
        · rcases ih ⟨c, hc, hk, hP⟩ with ⟨c3, hc3, hk3, hP3⟩
          exact ⟨c3, Or.inr hc3, hk3, hP3⟩

-- Claim theorems -------------------------------------------------------

/-- Claim C10: if the object handed to `Upsert` is not of the expected
Kubernetes resource type, `Upsert` returns an error immediately: no
backend call is made and no status condition is written (the trace is
empty and the condition list is returned unchanged). -/
theorem type_mismatch_guard (b : Bindings) (env : UpsertEnv) (obj : KObject)
    (h : obj.isExpectedType = false) :
    Upsert b env obj =
      { calls := [],
        conditions := obj.resource.conditions,
        ret := some ("failed to convert Object into resource object: "
                     ++ obj.typeName) } := by
  simp [Upsert, h]

/-- Witness for the type-mismatch guard at a concrete wrongly-typed
object. -/
theorem type_mismatch_guard_witness :
    Upsert NewOIDCConnectorReconciler envCreateOk objWrongType =
      { calls := [],
        conditions := objWrongType.resource.conditions,
        ret := some ("failed to convert Object into resource object: "
                     ++ objWrongType.typeName) } :=
  type_mismatch_guard NewOIDCConnectorReconciler envCreateOk objWrongType rfl

/-- Claim C1: when the remote resource already exists and its origin tag is
not the engine's own marker, `Upsert` makes no create, update or delete
call, records an ownership condition with status false, persists the
conditions (silently) before returning, and returns an ownership
error. -/
theorem ownership_gate (b : Bindings) (env : UpsertEnv) (obj : KObject)
    (r : RemoteResource)
    (hType : obj.isExpectedType = true)
    (hGet : env.getOutcome = GetOutcome.found r)
    (hOrigin : ¬ r.origin = OriginKubernetes) :
    (∀ e ∈ (Upsert b env obj).calls, e.isBackendMutation = false) ∧
    (∃ c ∈ (Upsert b env obj).conditions,
        c.kind = ConditionTypeTeleportResourceOwned ∧ c.status = false) ∧
    (Upsert b env obj).calls =
      [CallEvent.getCall obj.resource.name, CallEvent.ownershipCheck,
       CallEvent.statusWrite true (Upsert b env obj).conditions] ∧
    (Upsert b env obj).ret.isSome = true := by
  have hU : Upsert b env obj =
      upsertFromGet b env obj.resource obj.resource.toTeleport true (some r) := by
    simp [Upsert, hType, hGet]
  have hden : checkOwnership (some r) =
      ({ kind := ConditionTypeTeleportResourceOwned, status := false,
         reason := "origin conflict",
         message := "resource has foreign origin: " ++ r.origin,
         observedGeneration := 0 },
       some ("resource " ++ r.name ++ " is not owned by the operator, origin: "
             ++ r.origin)) := by
    simp [checkOwnership, hOrigin]
  rw [hU]
  unfold upsertFromGet
  rw [hden]
  refine ⟨?_, ?_, ?_, ?_⟩
  · intro e he
    fin_cases he <;> rfl
  · exact ⟨_, mem_setStatusCondition _ _, rfl, rfl⟩
  · simp [K8sResource.toTeleport]
  · rfl

/-- Witness for the ownership gate at a concrete foreign-origin remote
resource. -/
theorem ownership_gate_witness :
    (∀ e ∈ (Upsert NewOIDCConnectorReconciler envFoundForeign objConnA).calls,
        e.isBackendMutation = false) ∧
    (∃ c ∈ (Upsert NewOIDCConnectorReconciler envFoundForeign objConnA).conditions,
        c.kind = ConditionTypeTeleportResourceOwned ∧ c.status = false) ∧
    (Upsert NewOIDCConnectorReconciler envFoundForeign objConnA).calls =
      [CallEvent.getCall objConnA.resource.name, CallEvent.ownershipCheck,
       CallEvent.statusWrite true
         (Upsert NewOIDCConnectorReconciler envFoundForeign objConnA).conditions] ∧
    (Upsert NewOIDCConnectorReconciler envFoundForeign objConnA).ret.isSome = true :=
  ownership_gate NewOIDCConnectorReconciler envFoundForeign objConnA
    remoteForeign rfl rfl (by decide)

/-- Claim C2: on every pass reaching the mutation step (type assertion
succeeded, get did not fail with a non-NotFound error, ownership not
denied), the origin tag is stamped as `OriginKubernetes` and exactly one
bound mutation function is invoked: create when get reported NotFound,
update when the resource was found — never both. -/
theorem upsert_dispatch (b : Bindings) (env : UpsertEnv) (obj : KObject)
    (hType : obj.isExpectedType = true)
    (hGet : ∀ e, ¬ env.getOutcome = GetOutcome.otherError e)
    (hOwn : (checkOwnership (existingOf env.getOutcome)).2 = none) :
    (Upsert b env obj).calls.filter CallEvent.isMutation =
      (if env.getOutcome = GetOutcome.notFound
       then [CallEvent.createCall b.createFn
               { obj.resource.toTeleport with origin := OriginKubernetes }]
       else [CallEvent.updateCall b.updateFn
               { obj.resource.toTeleport with origin := OriginKubernetes }]) := by
  cases hg : env.getOutcome with
  | otherError e => exact absurd hg (hGet e)
  | notFound =>
      have hU : Upsert b env obj =
          upsertFromGet b env obj.resource obj.resource.toTeleport false none := by
        simp [Upsert, hType, hg]
      rw [hU]
      unfold upsertFromGet
      cases hce : env.createError <;>
        simp [hg, checkOwnership, hce, List.filter, CallEvent.isMutation]
  | found r =>
      by_cases ho : r.origin = OriginKubernetes
      · have hU : Upsert b env obj =
            upsertFromGet b env obj.resource obj.resource.toTeleport true (some r) := by
          simp [Upsert, hType, hg]
        rw [hU]
        unfold upsertFromGet
        cases hue : env.updateError <;>
          simp [hg, checkOwnership, ho, hue, List.filter, CallEvent.isMutation]
      · rw [hg] at hOwn
        simp [existingOf, checkOwnership, ho] at hOwn

/-- Witness for the upsert dispatch on the spec's concrete create
scenario. -/
theorem upsert_dispatch_witness :
    (Upsert NewOIDCConnectorReconciler envCreateOk objConnA).calls.filter
        CallEvent.isMutation =
      (if envCreateOk.getOutcome = GetOutcome.notFound
       then [CallEvent.createCall NewOIDCConnectorReconciler.createFn
               { objConnA.resource.toTeleport with origin := OriginKubernetes }]
       else [CallEvent.updateCall NewOIDCConnectorReconciler.updateFn
               { objConnA.resource.toTeleport with origin := OriginKubernetes }]) :=
  upsert_dispatch NewOIDCConnectorReconciler envCreateOk objConnA
    rfl (fun _ h => nomatch h) rfl

/-- Claim C3 counterexample: when the get call fails with an error other
than NotFound, the pass returns that error but does NOT run the
reconciliation-condition recording step: the trace holds only the get
call — no status write — and the condition list stays empty, so nothing
is recorded in the status conditions. -/
theorem get_error_skips_conditions_cex :
    Upsert NewOIDCConnectorReconciler envGetErr objConnA =
      { calls := [CallEvent.getCall "conn-a"], conditions := [],
        ret := some "backend unavailable" } := rfl

/-- Claim C3 (amended): if the get call fails with an error other than
NotFound, the pass aborts returning that error, makes no create or update
call, and records no status condition — the condition list is returned
unchanged and no status write happens. -/
theorem get_error_aborts (b : Bindings) (env : UpsertEnv) (obj : KObject)
    (e : String)
    (hType : obj.isExpectedType = true)
    (hGet : env.getOutcome = GetOutcome.otherError e) :
    Upsert b env obj =
      { calls := [CallEvent.getCall obj.resource.name],
        conditions := obj.resource.conditions, ret := some e } := by
  simp [Upsert, hType, hGet, K8sResource.toTeleport]

/-- Witness for the amended get-error behaviour at a concrete failing
get. -/
theorem get_error_aborts_witness :
    Upsert NewOIDCConnectorReconciler envGetErr objConnA =
      { calls := [CallEvent.getCall objConnA.resource.name],
        conditions := objConnA.resource.conditions,
        ret := some "backend unavailable" } :=
  get_error_aborts NewOIDCConnectorReconciler envGetErr objConnA
    "backend unavailable" rfl rfl

/-- Claim C4 counterexample: on the path where get reported NotFound and
the create call succeeded, a failing final status write is NOT swallowed:
`Upsert` returns the status-write error even though every
get/create/update call succeeded, so the returned value is not determined
solely by those calls. -/
theorem status_write_error_returned_cex :
    (Upsert NewOIDCConnectorReconciler envStatusFail objConnA).ret
        = some "status write failed" ∧
    (Upsert NewOIDCConnectorReconciler envStatusFail objConnA).calls.filter
        CallEvent.isMutation =
      [CallEvent.createCall "UpsertOIDCConnector"
         { name := "conn-a", spec := "issuer", origin := "kubernetes" }] :=
  ⟨rfl, rfl⟩

/-- Claim C4 (amended): status-write failures are swallowed only on
already-failing paths.  The returned error equals the primary error of
the get/ownership/mutation steps when there is one — regardless of the
status-write outcome — and equals the final status write's result when
the mutation path fully succeeded. -/
theorem status_write_error_policy (b : Bindings) (env : UpsertEnv)
    (obj : KObject) (hType : obj.isExpectedType = true) :
    (Upsert b env obj).ret =
      (match primaryError env with
       | some e => some e
       | none => env.statusWriteError) := by
  cases hg : env.getOutcome with
  | otherError e => simp [Upsert, hType, hg, primaryError]
  | notFound =>
      cases hce : env.createError <;>
        simp [Upsert, upsertFromGet, hType, hg, primaryError, checkOwnership, hce]
  | found r =>
      by_cases ho : r.origin = OriginKubernetes <;>
        cases hue : env.updateError <;>
          simp [Upsert, upsertFromGet, hType, hg, primaryError, checkOwnership,
                ho, hue]

/-- Witness for the status-write policy on the concrete path where the
mutation succeeded and the status write failed. -/
theorem status_write_error_policy_witness :
    (Upsert NewOIDCConnectorReconciler envStatusFail objConnA).ret =
      (match primaryError envStatusFail with
       | some e => some e
       | none => envStatusFail.statusWriteError) :=
  status_write_error_policy NewOIDCConnectorReconciler envStatusFail objConnA rfl

/-- The ownership condition produced by `checkOwnership` always has the
ownership condition type. -/
theorem checkOwnership_kind (existing : Option RemoteResource) :
    (checkOwnership existing).1.kind = ConditionTypeTeleportResourceOwned := by
  cases existing with
  | none => rfl
  | some r =>
      by_cases h : r.origin = OriginKubernetes <;> simp [checkOwnership, h]

/-- The ownership condition produced by `checkOwnership` always carries
observed generation 0: its only argument is the Teleport resource, which
holds no Kubernetes generation. -/
theorem checkOwnership_observedGeneration (existing : Option RemoteResource) :
    (checkOwnership existing).1.observedGeneration = 0 := by
  cases existing with
  | none => rfl
  | some r =>
      by_cases h : r.origin = OriginKubernetes <;> simp [checkOwnership, h]

/-- After setting the ownership condition, a condition of the ownership
type, carrying observed generation 0, is present. -/
theorem ownedCond_exists (conds : List Condition)
    (existing : Option RemoteResource) :
    ∃ c ∈ setStatusCondition conds (checkOwnership existing).1,
      c.kind = ConditionTypeTeleportResourceOwned
        ∧ c.observedGeneration = 0 :=
  ⟨(checkOwnership existing).1, mem_setStatusCondition _ _,
   checkOwnership_kind existing, checkOwnership_observedGeneration existing⟩

/-- Setting the reconciliation condition afterwards keeps a condition of
the ownership type, carrying observed generation 0, present. -/
theorem ownedCond_exists2 (conds : List Condition)
    (existing : Option RemoteResource) (err : Option String) :
    ∃ c ∈ setStatusCondition
            (setStatusCondition conds (checkOwnership existing).1)
            (getReconciliationConditionFromError err),
      c.kind = ConditionTypeTeleportResourceOwned
        ∧ c.observedGeneration = 0 := by
  apply exists_kind_setStatusCondition
  · cases err <;>
      simp [getReconciliationConditionFromError,
            ConditionTypeSuccessfullyReconciled,
            ConditionTypeTeleportResourceOwned]
  · exact ownedCond_exists conds existing

/-- Every upsert pass on a well-typed object produces one of four traces:
get error (get call only); ownership denied (get, ownership check, silent
status write); create dispatched; or update dispatched (get, ownership
check, one mutation bound to the reconciler's create resp. update
function, status write). -/
theorem upsert_calls_shape (b : Bindings) (env : UpsertEnv) (obj : KObject)
    (hType : obj.isExpectedType = true) :
    (∃ nm, (Upsert b env obj).calls = [CallEvent.getCall nm]) ∨
    (∃ nm s cs, (Upsert b env obj).calls =
        [CallEvent.getCall nm, CallEvent.ownershipCheck,
         CallEvent.statusWrite s cs]) ∨
    (∃ nm st s cs, (Upsert b env obj).calls =
        [CallEvent.getCall nm, CallEvent.ownershipCheck,
         CallEvent.createCall b.createFn st, CallEvent.statusWrite s cs]) ∨
    (∃ nm st s cs, (Upsert b env obj).calls =
        [CallEvent.getCall nm, CallEvent.ownershipCheck,
         CallEvent.updateCall b.updateFn st, CallEvent.statusWrite s cs]) := by
  obtain ⟨ty, tn, res⟩ := obj
  simp only at hType
  subst hType
  obtain ⟨g, ce, ue, se⟩ := env
  cases g with
  | otherError e =>
      left
      exact ⟨res.name, rfl⟩
  | notFound =>
      cases ce with
      | none =>
          right; right; left
          exact ⟨_, _, _, _, rfl⟩
      | some e =>
          right; right; left
          exact ⟨_, _, _, _, rfl⟩
  | found r =>
      by_cases ho : r.origin = OriginKubernetes
      · cases ue with
        | none =>
            right; right; right
            simp only [Upsert, upsertFromGet, checkOwnership, ho, if_true,
                       reduceIte]
            exact ⟨_, _, _, _, rfl⟩
        | some e =>
            right; right; right
            simp only [Upsert, upsertFromGet, checkOwnership, ho, if_true,
                       reduceIte]
            exact ⟨_, _, _, _, rfl⟩
      · right; left
        simp only [Upsert, upsertFromGet, checkOwnership, if_neg ho]
        exact ⟨_, _, _, rfl⟩

/-- Claim C5: the delete path is idempotent: `Delete` forwards the bound
delete's outcome, and the base control loop's delete handling (modelled
from the spec) accepts NotFound as success — so an already-vanished
remote resource does not block finalizer removal — while any other error
is returned unchanged for retry. -/
theorem delete_path_idempotent (deleteFn : String → DeleteOutcome)
    (obj : KObject) :
    (Delete deleteFn obj = DeleteOutcome.notFound →
        baseLoopDelete deleteFn obj = none) ∧
    (∀ e, Delete deleteFn obj = DeleteOutcome.otherError e →
        baseLoopDelete deleteFn obj = some e) := by
  constructor
  · intro h; simp [baseLoopDelete, h]
  · intro e h; simp [baseLoopDelete, h]

/-- Witness for the idempotent delete at a bound delete reporting
NotFound. -/
theorem delete_path_idempotent_witness :
    baseLoopDelete deleteNotFoundFn objConnA = none :=
  (delete_path_idempotent deleteNotFoundFn objConnA).1 rfl

/-- Claim C6 counterexample, both halves at concrete inputs.  First: a
pass whose get call fails with a non-NotFound error ends WITHOUT any
status update — the stale reconciliation condition of an earlier pass is
returned unchanged and the trace holds no status write — so not every
failure path updates the condition set.  Second: a pass that does update
the conditions writes them with observed generation 0 although the
declarative object's generation is 3 — `checkOwnership` receives only the
Teleport resource and `getReconciliationConditionFromError` only the
error, neither of which carries the generation — so the updated
conditions do not reflect the observed generation either. -/
theorem status_always_updated_cex :
    (Upsert NewOIDCConnectorReconciler envGetTimeout objStale =
      { calls := [CallEvent.getCall "conn-b"],
        conditions := [staleReconCond],
        ret := some "context deadline exceeded" }) ∧
    objConnA.resource.generation = 3 ∧
    (Upsert NewOIDCConnectorReconciler envCreateOk objConnA).conditions =
      [{ kind := ConditionTypeTeleportResourceOwned, status := true,
         reason := "new resource", message := "", observedGeneration := 0 },
       { kind := ConditionTypeSuccessfullyReconciled, status := true,
         reason := "reconciliation succeeded", message := "",
         observedGeneration := 0 }] :=
  ⟨rfl, rfl, rfl⟩

/-- Claim C6 (amended): every pass that passes the type assertion and
whose get call does not fail with a non-NotFound error ends with the
final condition set written back (a status-write call carrying exactly
the final conditions appears in the trace) and containing this pass's
ownership condition; the type-mismatch and get-error paths return without
touching the status conditions, and the conditions a pass writes carry
observed generation 0 rather than the declarative object's generation,
because the condition builders never receive the generation. -/
theorem status_updated_after_ownership_check (b : Bindings)
    (env : UpsertEnv) (obj : KObject)
    (hType : obj.isExpectedType = true)
    (hGet : ∀ e, ¬ env.getOutcome = GetOutcome.otherError e) :
    ∃ s, CallEvent.statusWrite s (Upsert b env obj).conditions
            ∈ (Upsert b env obj).calls ∧
      ∃ c ∈ (Upsert b env obj).conditions,
        c.kind = ConditionTypeTeleportResourceOwned
          ∧ c.observedGeneration = 0 := by
  obtain ⟨ty, tn, res⟩ := obj
  simp only at hType
  subst hType
  obtain ⟨g, ce, ue, se⟩ := env
  cases g with
  | otherError e => exact absurd rfl (hGet e)
  | notFound =>
      cases ce with
      | none =>
          exact ⟨false, by simp [Upsert, upsertFromGet, checkOwnership],
                 ownedCond_exists2 res.conditions none none⟩
      | some e =>
          exact ⟨true, by simp [Upsert, upsertFromGet, checkOwnership],
                 ownedCond_exists2 res.conditions none (some e)⟩
  | found r =>
      by_cases ho : r.origin = OriginKubernetes
      · cases ue with
        | none =>
            refine ⟨false, ?_, ?_⟩
            · simp [Upsert, upsertFromGet, checkOwnership, ho]
            · have h2 := ownedCond_exists2 res.conditions (some r) none
              simp only [checkOwnership, ho, if_true, reduceIte] at h2
              simpa [Upsert, upsertFromGet, checkOwnership, ho] using h2
        | some e =>
            refine ⟨true, ?_, ?_⟩
            · simp [Upsert, upsertFromGet, checkOwnership, ho]
            · have h2 := ownedCond_exists2 res.conditions (some r) (some e)
              simp only [checkOwnership, ho, if_true, reduceIte] at h2
              simpa [Upsert, upsertFromGet, checkOwnership, ho] using h2
      · refine ⟨true, ?_, ?_⟩
        · simp [Upsert, upsertFromGet, checkOwnership, ho]
        · have h2 := ownedCond_exists res.conditions (some r)
          simp only [checkOwnership, ho, if_neg ho] at h2
          simpa [Upsert, upsertFromGet, checkOwnership, ho] using h2

/-- Witness for the amended status-update behaviour on the concrete
create scenario. -/
theorem status_updated_after_ownership_check_witness :
    ∃ s, CallEvent.statusWrite s
            (Upsert NewOIDCConnectorReconciler envCreateOk objConnA).conditions
            ∈ (Upsert NewOIDCConnectorReconciler envCreateOk objConnA).calls ∧
      ∃ c ∈ (Upsert NewOIDCConnectorReconciler envCreateOk objConnA).conditions,
        c.kind = ConditionTypeTeleportResourceOwned
          ∧ c.observedGeneration = 0 :=
  status_updated_after_ownership_check NewOIDCConnectorReconciler envCreateOk
    objConnA rfl (fun _ h => nomatch h)

/-- Claim C7: within one upsert pass the ownership check strictly precedes
every mutating (create/update) call, and every status write strictly
follows the mutating call, stated over positions in the pass's call
trace. -/
theorem in_pass_ordering (b : Bindings) (env : UpsertEnv) (obj : KObject)
    (hType : obj.isExpectedType = true) :
    ∀ i j : ℕ,
      ((Upsert b env obj).calls.getD i (CallEvent.getCall "")).isMutation
          = true →
      (((Upsert b env obj).calls.getD j (CallEvent.getCall "")).isOwnershipCheck
          = true → j < i) ∧
      (((Upsert b env obj).calls.getD j (CallEvent.getCall "")).isStatusWrite
          = true → i < j) := by
  intro i j hi
  rcases upsert_calls_shape b env obj hType with
    ⟨nm, hc⟩ | ⟨nm, s, cs, hc⟩ | ⟨nm, st, s, cs, hc⟩ | ⟨nm, st, s, cs, hc⟩ <;>
  rw [hc] at hi ⊢ <;>
  rcases i with _ | _ | _ | _ | i <;>
  rcases j with _ | _ | _ | _ | j <;>
  simp_all [List.getD_cons_zero, List.getD_cons_succ, List.getD_nil,
            CallEvent.isMutation, CallEvent.isOwnershipCheck,
            CallEvent.isStatusWrite]

/-- Witness for the in-pass ordering on the concrete create scenario:
the ownership check (index 1) precedes the create call (index 2), and the
status write (index 3) follows it. -/
theorem in_pass_ordering_witness : (1 : ℕ) < 2 ∧ (2 : ℕ) < 3 :=
  ⟨(in_pass_ordering NewOIDCConnectorReconciler envCreateOk objConnA rfl
      2 1 rfl).1 rfl,
   (in_pass_ordering NewOIDCConnectorReconciler envCreateOk objConnA rfl
      2 3 rfl).2 rfl⟩

/-- Every mutation event of an upsert pass calls the reconciler's bound
create or update function. -/
theorem upsert_mutation_fn (b : Bindings) (env : UpsertEnv) (obj : KObject)
    (e : CallEvent) (he : e ∈ (Upsert b env obj).calls)
    (hm : e.isMutation = true) :
    e.backendFn = some b.createFn ∨ e.backendFn = some b.updateFn := by
  by_cases hType : obj.isExpectedType = true
  · rcases upsert_calls_shape b env obj hType with
      ⟨nm, hc⟩ | ⟨nm, s, cs, hc⟩ | ⟨nm, st, s, cs, hc⟩ | ⟨nm, st, s, cs, hc⟩ <;>
    rw [hc] at he <;>
    fin_cases he <;>
    simp_all [CallEvent.isMutation, CallEvent.backendFn]
  · have hf : obj.isExpectedType = false := by simpa using hType
    simp [Upsert, hf] at he

/-- Claim C9: the OIDC, SAML and GitHub connector reconcilers bind the
same backend upsert function as both the create and the update function
of the generic engine, so for these kinds the create-vs-update branch
invokes the identical remote call: every mutation event in any upsert
pass with these bindings calls that single upsert function. -/
theorem adapters_create_eq_update :
    NewOIDCConnectorReconciler.createFn = NewOIDCConnectorReconciler.updateFn ∧
    NewSAMLConnectorReconciler.createFn = NewSAMLConnectorReconciler.updateFn ∧
    NewGithubConnectorReconciler.createFn
        = NewGithubConnectorReconciler.updateFn ∧
    (∀ (env : UpsertEnv) (obj : KObject) (e : CallEvent),
        e ∈ (Upsert NewOIDCConnectorReconciler env obj).calls →
        e.isMutation = true → e.backendFn = some "UpsertOIDCConnector") ∧
    (∀ (env : UpsertEnv) (obj : KObject) (e : CallEvent),
        e ∈ (Upsert NewSAMLConnectorReconciler env obj).calls →
        e.isMutation = true → e.backendFn = some "UpsertSAMLConnector") ∧
    (∀ (env : UpsertEnv) (obj : KObject) (e : CallEvent),
        e ∈ (Upsert NewGithubConnectorReconciler env obj).calls →
        e.isMutation = true → e.backendFn = some "UpsertGithubConnector") := by
  refine ⟨rfl, rfl, rfl, ?_, ?_, ?_⟩ <;>
    intro env obj e he hm <;>
    rcases upsert_mutation_fn _ env obj e he hm with h | h <;>
    exact h

/-- Witness: in the concrete create scenario with the OIDC bindings, the
dispatched mutation event calls `UpsertOIDCConnector`. -/
theorem adapters_create_eq_update_witness :
    createdEventConnA.backendFn = some "UpsertOIDCConnector" :=
  adapters_create_eq_update.2.2.2.1 envCreateOk objConnA createdEventConnA
    (by decide) rfl

/-- Claim C8: on the ownership-denied path, only the ownership condition
is written: the final condition list is the input list with the denied
ownership condition set, and its reconciliation-kind conditions equal
those of the input — a reader still sees the reconciliation entry of an
earlier pass. -/
theorem denied_pass_keeps_reconciliation (b : Bindings) (env : UpsertEnv)
    (obj : KObject) (r : RemoteResource)
    (hType : obj.isExpectedType = true)
    (hGet : env.getOutcome = GetOutcome.found r)
    (hOrigin : ¬ r.origin = OriginKubernetes) :
    (Upsert b env obj).conditions =
      setStatusCondition obj.resource.conditions (checkOwnership (some r)).1 ∧
    (Upsert b env obj).conditions.filter
        (fun c => c.kind == ConditionTypeSuccessfullyReconciled)
      = obj.resource.conditions.filter
          (fun c => c.kind == ConditionTypeSuccessfullyReconciled) := by
  have hU : Upsert b env obj =
      upsertFromGet b env obj.resource obj.resource.toTeleport true (some r) := by
    simp [Upsert, hType, hGet]
  rw [hU]
  constructor
  · simp [upsertFromGet, checkOwnership, hOrigin]
  · have hkind : ¬ (checkOwnership (some r)).1.kind
        = ConditionTypeSuccessfullyReconciled := by
      rw [checkOwnership_kind]
      decide
    have hfil := setStatusCondition_filter_ne obj.resource.conditions
      (checkOwnership (some r)).1 ConditionTypeSuccessfullyReconciled hkind
    calc (upsertFromGet b env obj.resource obj.resource.toTeleport true
            (some r)).conditions.filter
            (fun c => c.kind == ConditionTypeSuccessfullyReconciled)
        = (setStatusCondition obj.resource.conditions
            (checkOwnership (some r)).1).filter
            (fun c => c.kind == ConditionTypeSuccessfullyReconciled) := by
          simp [upsertFromGet, checkOwnership, hOrigin]
      _ = obj.resource.conditions.filter
            (fun c => c.kind == ConditionTypeSuccessfullyReconciled) := hfil

/-- Witness for the denied-pass frame effect at an object carrying a
stale reconciliation condition. -/
theorem denied_pass_keeps_reconciliation_witness :
    (Upsert NewOIDCConnectorReconciler envFoundForeign objStale).conditions =
      setStatusCondition objStale.resource.conditions
        (checkOwnership (some remoteForeign)).1 ∧
    (Upsert NewOIDCConnectorReconciler envFoundForeign objStale).conditions.filter
        (fun c => c.kind == ConditionTypeSuccessfullyReconciled)
      = objStale.resource.conditions.filter
          (fun c => c.kind == ConditionTypeSuccessfullyReconciled) :=
  denied_pass_keeps_reconciliation NewOIDCConnectorReconciler envFoundForeign
    objStale remoteForeign rfl rfl (by decide)

end TeleportOperator
